import Mathlib

/-!
# Verification of the seedstr_nebulas_agent core against its specification

Shallow embedding of the core logic of the agent:

* `seedstr_agent/runner.py` — job pipeline (`_process_job`, `_effective_budget`,
  `_mark_seen`, `_create_submission_archive`);
* `seedstr_agent/llm.py` — model failover client (`__init__`, `generate`);
* `seedstr_agent/api.py` — submission negotiator (`respond_file`,
  `_extract_upload_file_candidates`, `_extract_upload_reference_strings`).

Python dicts parsed from JSON are modelled by the inductive type `JVal`;
objects are association lists with first-match lookup.  Network and clock
effects are passed in explicitly as oracles.
-/

namespace Seedstr

/-- A JSON-like Python value, as seen by the agent after `response.json()`:
`None`, booleans, numbers (modelled as rationals), strings, lists and
dicts (modelled as association lists). -/
inductive JVal where
  | vnull : JVal
  | vbool : Bool → JVal
  | vnum : ℚ → JVal
  | vstr : String → JVal
  | vlist : List JVal → JVal
  | vobj : List (String × JVal) → JVal

/-- A Python dict with JSON-like values. -/
abbrev JObj := List (String × JVal)

/-- `d.get(key)` on a dict: first binding of `key`, if any. -/
def jget : JObj → String → Option JVal
  | [], _ => none
  | (k, v) :: rest, key => if k = key then some v else jget rest key

/-- The whitespace characters stripped by Python `str.strip` / `str.rstrip`
(the ASCII ones; the agent never feeds it exotic Unicode whitespace). -/
def isPyWs (c : Char) : Bool :=
  c = ' ' || c = '\t' || c = '\n' || c = '\r' || c = Char.ofNat 11 || c = Char.ofNat 12

/-- Python `str.strip()`: drop leading and trailing whitespace. -/
def pyStrip (s : String) : String :=
  String.mk (((s.data.dropWhile isPyWs).reverse.dropWhile isPyWs).reverse)

/-- Python `str.rstrip()`: drop trailing whitespace only. -/
def pyRstrip (s : String) : String :=
  String.mk ((s.data.reverse.dropWhile isPyWs).reverse)

/-- Numeric value of a digit list, most significant first. -/
def digitsVal (cs : List Char) : ℕ :=
  cs.foldl (fun n c => 10 * n + (c.toNat - 48)) 0

/-- Modelled core of Python `float()` applied to a string: optional sign,
then digits with at most one decimal point (at least one digit overall).
Python additionally strips surrounding whitespace and accepts exponents and
the words inf/nan; no claim exercises those forms. -/
def parsePyFloat (s : String) : Option ℚ :=
  let cs := (pyStrip s).data
  let body : ℤ × List Char :=
    match cs with
    | '+' :: rest => (1, rest)
    | '-' :: rest => (-1, rest)
    | _ => (1, cs)
  let sign := body.1
  let ds := body.2
  let intPart := ds.takeWhile Char.isDigit
  let rest := ds.dropWhile Char.isDigit
  match rest with
  | [] =>
    if intPart.isEmpty then none
    else some (mkRat (sign * (digitsVal intPart : ℤ)) 1)
  | '.' :: frac =>
    if frac.all Char.isDigit && !(intPart.isEmpty && frac.isEmpty) then
      some (mkRat (sign * ((digitsVal intPart * 10 ^ frac.length + digitsVal frac : ℕ) : ℤ))
        (10 ^ frac.length))
    else none
  | _ => none

/-- Python `float(v)` as a partial function: numbers and booleans coerce,
numeric strings parse, everything else (None, lists, dicts, non-numeric
strings) raises `TypeError`/`ValueError`, modelled as `none`. -/
def pyFloat : JVal → Option ℚ
  | .vnum q => some q
  | .vbool b => some (if b then 1 else 0)
  | .vstr s => parsePyFloat s
  | _ => none

/-- Python `str(v)`.  Strings pass through unchanged — the only case any
claim evaluates.  Scalars get their usual rendering; the rendering of
containers is abstracted to a constant placeholder. -/
def pyStr : JVal → String
  | .vnull => "None"
  | .vbool true => "True"
  | .vbool false => "False"
  | .vstr s => s
  | .vnum q => if q.den = 1 then toString q.num else toString q
  | .vlist _ => "<list>"
  | .vobj _ => "<dict>"

/-- Python `job.get("jobType") == "SWARM"`: true exactly when the value is
the string `"SWARM"`. -/
def isSwarmTag : Option JVal → Bool
  | some (.vstr s) => s = "SWARM"
  | _ => false

/-- `float(job.get("budget", 0))` guarded by try/except: missing key
defaults to `0`, a present value coerces via `float()`, coercion failure
yields `0.0`. -/
def budget_fallback (job : JObj) : ℚ :=
  match jget job "budget" with
  | none => 0
  | some v => (pyFloat v).getD 0

/-- `AgentRunner._effective_budget` (runner.py lines 115-127): for a SWARM
job with a non-None `budgetPerAgent`, coerce it (0 on failure); in every
other case fall through to the `budget` rule. -/
def effective_budget (job : JObj) : ℚ :=
  if isSwarmTag (jget job "jobType") then
    match jget job "budgetPerAgent" with
    | some v =>
      match v with
      | .vnull => budget_fallback job
      | _ => (pyFloat v).getD 0
    | none => budget_fallback job
  else budget_fallback job

/-- The effective-budget rule exactly as claim C5 words it: a SWARM job
uses `budgetPerAgent` when present and coercible and otherwise 0; any
other job uses `budget` when present and coercible and otherwise 0. -/
def claimC5Budget (job : JObj) : ℚ :=
  if isSwarmTag (jget job "jobType") then
    match jget job "budgetPerAgent" with
    | some v => (pyFloat v).getD 0
    | none => 0
  else
    match jget job "budget" with
    | some v => (pyFloat v).getD 0
    | none => 0

/-- The effective-budget rule as amended: a SWARM job uses
`budgetPerAgent` when that key is present and non-null (coercion failure
giving 0); when the key is absent or null — and for every non-SWARM job —
the `budget` key is used instead, again coerced with failure and absence
giving 0.  Coercion never raises. -/
def amendedC5Budget (job : JObj) : ℚ :=
  let fromBudgetKey : ℚ :=
    match jget job "budget" with
    | some v => (pyFloat v).getD 0
    | none => 0
  if isSwarmTag (jget job "jobType") then
    match jget job "budgetPerAgent" with
    | some .vnull => fromBudgetKey
    | some v => (pyFloat v).getD 0
    | none => fromBudgetKey
  else fromBudgetKey

/-! ## Model failover client (`seedstr_agent/llm.py`) -/

/-- An ordered (provider, model) pair, `llm.ModelTarget`. -/
structure ModelTarget where
  provider : String
  model : String
deriving DecidableEq, Repr

/-- `"<provider>:<model>"`, the label returned on success and used in
failure messages. -/
def target_label (t : ModelTarget) : String :=
  t.provider ++ ":" ++ t.model

/-- The outcome of one provider call for one target: either the returned
text or a raised exception rendered as its message.  The per-target
provider adapters (`_generate_gemini`, `_generate_openai`) are external
effects, so `generate` is parameterised by this oracle. -/
inductive CallOutcome where
  | text : String → CallOutcome
  | exn : String → CallOutcome
deriving DecidableEq, Repr

/-- `LLMFailoverClient.__init__` (llm.py lines 16-41): a provider is
enabled when its key and its model list are both truthy; the target list
is the enabled Gemini targets in order followed by the enabled OpenAI
targets in order; an empty target list raises `ValueError`. -/
def llm_init (gemini_api_key openai_api_key : String)
    (gemini_models openai_models : List String) :
    Except String (List ModelTarget) :=
  let geminiEnabled := !gemini_api_key.isEmpty && !gemini_models.isEmpty
  let openaiEnabled := !openai_api_key.isEmpty && !openai_models.isEmpty
  let targets :=
    (if geminiEnabled then gemini_models.map (fun m => ModelTarget.mk "gemini" m) else []) ++
    (if openaiEnabled then openai_models.map (fun m => ModelTarget.mk "openai" m) else [])
  if targets.isEmpty then
    .error "No LLM models configured. Set GEMINI_API_KEY/OPENAI_API_KEY with model lists."
  else
    .ok targets

/-- Claim C9's wording of "enabled": both the credential and the model
list are non-empty. -/
def providerEnabled (api_key : String) (models : List String) : Prop :=
  api_key ≠ "" ∧ models ≠ []

instance (api_key : String) (models : List String) :
    Decidable (providerEnabled api_key models) := by
  unfold providerEnabled; infer_instance

/-- The loop body of `LLMFailoverClient.generate` (llm.py lines 43-61),
instrumented with the list of targets actually attempted.  `errs` is the
accumulated failure trail, in attempt order. -/
def generate_go (call : ModelTarget → CallOutcome) :
    List ModelTarget → List String → Except String (String × String) × List ModelTarget
  | [], errs =>
    (.error ("All configured models failed. " ++ String.intercalate " | " errs), [])
  | t :: rest, errs =>
    match call t with
    | .text s =>
      if pyStrip s ≠ "" then
        (.ok (pyStrip s, target_label t), [t])
      else
        let r := generate_go call rest (errs ++ [target_label t ++ " returned empty output"])
        (r.1, t :: r.2)
    | .exn m =>
      let r := generate_go call rest (errs ++ [target_label t ++ " failed: " ++ m])
      (r.1, t :: r.2)

/-- `LLMFailoverClient.generate`: the result together with the trace of
attempted targets. -/
def generate (call : ModelTarget → CallOutcome) (targets : List ModelTarget) :
    Except String (String × String) × List ModelTarget :=
  generate_go call targets []

/-- A target fails when its provider call raises or returns text that is
empty after stripping. -/
def target_fails (call : ModelTarget → CallOutcome) (t : ModelTarget) : Bool :=
  match call t with
  | .text s => pyStrip s = ""
  | .exn _ => true

/-- The failure string recorded for a failing target: the exception
message for a raise, the fixed empty-output phrase otherwise. -/
def failure_reason (call : ModelTarget → CallOutcome) (t : ModelTarget) : String :=
  match call t with
  | .exn m => target_label t ++ " failed: " ++ m
  | .text _ => target_label t ++ " returned empty output"

/-! ## Submission negotiator (`seedstr_agent/api.py`) -/

/-- A raised `SeedstrApiError`, carrying its message. -/
structure ApiErr where
  msg : String
deriving DecidableEq, Repr

/-- `SeedstrApiClient._extract_upload_file_candidates` (api.py lines
101-111): a list under "files" keeps its dict items; otherwise a dict
under "file" gives a singleton; otherwise no candidates. -/
def extract_upload_file_candidates (upload_result : JObj) : List JObj :=
  match jget upload_result "files" with
  | some (.vlist items) =>
    items.filterMap (fun v => match v with | .vobj o => some o | _ => none)
  | _ =>
    match jget upload_result "file" with
    | some (.vobj o) => [o]
    | _ => []

/-- The fixed key priority scanned for reference strings. -/
def refKeys : List String :=
  ["url", "fileUrl", "cdnUrl", "signedUrl", "path", "key", "id", "fileId"]

/-- The inner `add_ref` helper: skip missing values and `None`, stringify
and strip the rest, and append when non-empty and not yet present. -/
def add_ref (refs : List String) (v : Option JVal) : List String :=
  match v with
  | none => refs
  | some .vnull => refs
  | some x =>
    let text := pyStrip (pyStr x)
    if text ≠ "" ∧ text ∉ refs then refs ++ [text] else refs

/-- `SeedstrApiClient._extract_upload_reference_strings` (api.py lines
113-132): scan the keys at top level, then inside each file candidate,
deduplicating in first-seen order. -/
def extract_upload_reference_strings (upload_result : JObj) : List String :=
  let top := refKeys.foldl (fun refs k => add_ref refs (jget upload_result k)) []
  (extract_upload_file_candidates upload_result).foldl
    (fun refs item => refKeys.foldl (fun refs k => add_ref refs (jget item k)) refs)
    top

/-- The five FILE-shaped payloads tried for one reference string. -/
def ref_attempts (ref : String) : List JVal :=
  [.vobj [("responseType", .vstr "FILE"), ("content", .vstr ref)],
   .vobj [("responseType", .vstr "FILE"), ("fileUrl", .vstr ref)],
   .vobj [("responseType", .vstr "FILE"), ("url", .vstr ref)],
   .vobj [("responseType", .vstr "FILE"), ("attachments", .vlist [.vstr ref])],
   .vobj [("responseType", .vstr "FILE"), ("files", .vlist [.vobj [("url", .vstr ref)]])]]

/-- The plain-text fallback payload. -/
def text_attempt (fallback_text : String) : JVal :=
  .vobj [("responseType", .vstr "TEXT"), ("content", .vstr fallback_text)]

/-- The ordered attempt list built by `respond_file` (api.py lines
139-157). -/
def respond_file_attempts (upload_result : JObj) (fallback_text : String) : List JVal :=
  let file_items := extract_upload_file_candidates upload_result
  let refs := extract_upload_reference_strings upload_result
  let fileAttempts :=
    match file_items with
    | [] => []
    | [single] =>
      [.vobj [("responseType", .vstr "FILE"), ("files", .vlist (file_items.map .vobj))],
       .vobj [("responseType", .vstr "FILE"), ("file", .vobj single)]]
    | _ =>
      [.vobj [("responseType", .vstr "FILE"), ("files", .vlist (file_items.map .vobj))]]
  fileAttempts ++ refs.flatMap ref_attempts ++ [text_attempt fallback_text]

/-- Render the `last_error` variable for the final message, Python-style
(`None` only when no attempt ran, which never happens). -/
def last_error_msg : Option ApiErr → String
  | some e => e.msg
  | none => "None"

/-- The exhaustion error raised when every attempt failed, wrapping the
last error. -/
def exhaustion_error (job_id : String) (last : Option ApiErr) : ApiErr :=
  ApiErr.mk ("Failed to submit file response for job " ++ job_id ++ ": " ++ last_error_msg last)

/-- The trial loop of `respond_file` (api.py lines 159-166): POST each
payload in order via the transport oracle `request` (indexed by how many
requests were already made), return the first success, remember the last
`SeedstrApiError`, and raise the wrapping error after the list is
exhausted. -/
def try_attempts (request : ℕ → JVal → Except ApiErr JVal) (job_id : String) :
    List JVal → ℕ → Option ApiErr → Except ApiErr JVal
  | [], _, last => .error (exhaustion_error job_id last)
  | p :: rest, k, _ =>
    match request k p with
    | .ok r => .ok r
    | .error e => try_attempts request job_id rest (k + 1) (some e)

/-- `SeedstrApiClient.respond_file` (api.py lines 134-166). -/
def respond_file (request : ℕ → JVal → Except ApiErr JVal) (job_id : String)
    (upload_result : JObj) (fallback_text : String) : Except ApiErr JVal :=
  try_attempts request job_id (respond_file_attempts upload_result fallback_text) 0 none

/-- Every payload in the list draws an error from the transport, starting
at request index `k`. -/
def all_error (request : ℕ → JVal → Except ApiErr JVal) : ℕ → List JVal → Prop
  | _, [] => True
  | k, p :: rest => (∃ e, request k p = .error e) ∧ all_error request (k + 1) rest

/-- The last error produced by a run through the whole list (used to state
what the exhaustion error wraps). -/
def last_err (request : ℕ → JVal → Except ApiErr JVal) :
    ℕ → Option ApiErr → List JVal → Option ApiErr
  | _, last, [] => last
  | k, last, p :: rest =>
    last_err request (k + 1)
      (match request k p with | .error e => some e | .ok _ => last) rest

/-- The attempt order exactly as claim C1 describes it: descriptor-list
attempt plus a single-descriptor attempt when there is exactly one; then,
for each reference string in order, the shapes content, fileUrl, url,
one-element attachments, one-element files-of-url; then the plain-text
fallback. -/
def claimC1Attempts (upload_result : JObj) (fallback_text : String) : List JVal :=
  let ds := extract_upload_file_candidates upload_result
  let descriptorAttempts :=
    (if ds.length ≥ 1 then
      [JVal.vobj [("responseType", .vstr "FILE"), ("files", .vlist (ds.map .vobj))]]
     else []) ++
    (if ds.length = 1 then
      [JVal.vobj [("responseType", .vstr "FILE"), ("file", .vobj (ds.headD []))]]
     else [])
  let perRef := (extract_upload_reference_strings upload_result).flatMap ref_attempts
  descriptorAttempts ++ perRef ++ [text_attempt fallback_text]

/-! ## Job pipeline (`seedstr_agent/runner.py`) -/

/-- The terminal state `_process_job` reaches for one job. -/
inductive Outcome where
  | skippedNoId
  | skippedSeen
  | skippedBudget
  | acceptFailed
  | skippedEmptyPrompt
  | failed
  | submitted
deriving DecidableEq, Repr

/-- The external effects one run of `_process_job` can draw on:
`acceptResult` is `some msg` when `accept_job` raises `SeedstrApiError msg`
and `none` on success; the remaining three are the outcomes of
`llm.generate`, `upload_file` and `respond_file`, each either a raised
exception message or a value. -/
structure ProcEffects where
  acceptResult : Option String
  generateResult : Except String (String × String)
  uploadResult : Except String JObj
  respondResult : Except String JObj

/-- What one run of `_process_job` did: its terminal outcome, whether
`_mark_seen` ran, the in-memory seen set afterwards, and which external
calls were made. -/
structure ProcessResult where
  outcome : Outcome
  markedSeen : Bool
  seenAfter : Finset String
  acceptCalled : Bool
  generateCalled : Bool
  uploadCalled : Bool
  respondCalled : Bool
deriving DecidableEq

/-- `str(job.get("id", ""))`, the job identifier the pipeline works with. -/
def job_id_of (job : JObj) : String :=
  pyStr ((jget job "id").getD (.vstr ""))

/-- `str(job.get("jobType", "STANDARD"))`. -/
def job_type_of (job : JObj) : String :=
  pyStr ((jget job "jobType").getD (.vstr "STANDARD"))

/-- `str(job.get("prompt", "")).strip()`. -/
def prompt_of (job : JObj) : String :=
  pyStrip (pyStr ((jget job "prompt").getD (.vstr "")))

/-- The tail of `_process_job` after the accept stage (runner.py lines
85-113): empty prompt skips and marks seen; then generate, upload and
respond run in sequence inside one try/except — the first exception ends
the job without marking it seen, and only full success marks it seen. -/
def process_job_rest (seen : Finset String) (job : JObj) (eff : ProcEffects)
    (job_id : String) (acceptCalled : Bool) : ProcessResult :=
  if prompt_of job = "" then
    { outcome := .skippedEmptyPrompt, markedSeen := true, seenAfter := insert job_id seen,
      acceptCalled := acceptCalled, generateCalled := false,
      uploadCalled := false, respondCalled := false }
  else
    match eff.generateResult with
    | .error _ =>
      { outcome := .failed, markedSeen := false, seenAfter := seen,
        acceptCalled := acceptCalled, generateCalled := true,
        uploadCalled := false, respondCalled := false }
    | .ok _ =>
      match eff.uploadResult with
      | .error _ =>
        { outcome := .failed, markedSeen := false, seenAfter := seen,
          acceptCalled := acceptCalled, generateCalled := true,
          uploadCalled := true, respondCalled := false }
      | .ok _ =>
        match eff.respondResult with
        | .error _ =>
          { outcome := .failed, markedSeen := false, seenAfter := seen,
            acceptCalled := acceptCalled, generateCalled := true,
            uploadCalled := true, respondCalled := true }
        | .ok _ =>
          { outcome := .submitted, markedSeen := true, seenAfter := insert job_id seen,
            acceptCalled := acceptCalled, generateCalled := true,
            uploadCalled := true, respondCalled := true }

/-- `AgentRunner._process_job` (runner.py lines 56-113): skip on empty id;
skip on already seen; skip and mark seen when under budget; for a SWARM
job, a failing accept marks seen and stops; then the generation and
submission chain of `process_job_rest`. -/
def process_job (seen : Finset String) (min_budget : ℚ) (job : JObj)
    (eff : ProcEffects) : ProcessResult :=
  let job_id := job_id_of job
  if job_id = "" then
    { outcome := .skippedNoId, markedSeen := false, seenAfter := seen,
      acceptCalled := false, generateCalled := false,
      uploadCalled := false, respondCalled := false }
  else if job_id ∈ seen then
    { outcome := .skippedSeen, markedSeen := false, seenAfter := seen,
      acceptCalled := false, generateCalled := false,
      uploadCalled := false, respondCalled := false }
  else if effective_budget job < min_budget then
    { outcome := .skippedBudget, markedSeen := true, seenAfter := insert job_id seen,
      acceptCalled := false, generateCalled := false,
      uploadCalled := false, respondCalled := false }
  else if job_type_of job = "SWARM" then
    match eff.acceptResult with
    | some _ =>
      { outcome := .acceptFailed, markedSeen := true, seenAfter := insert job_id seen,
        acceptCalled := true, generateCalled := false,
        uploadCalled := false, respondCalled := false }
    | none => process_job_rest seen job eff job_id true
  else process_job_rest seen job eff job_id false

/-! ## Seen-job store persistence (`AgentRunner._mark_seen`) -/

/-- `list(self._seen_jobs)[-1000:]` (runner.py line 141): the suffix of
length at most 1000 of the order in which Python happens to enumerate the
in-memory `set`, which is what `_mark_seen` persists under `seen_jobs`. -/
def mark_seen_persist (enum : List String) : List String :=
  enum.drop (enum.length - 1000)

/-- `enum` is a possible iteration order of a Python `set` whose elements
are those of `elems`: no duplicates, same membership. -/
def validEnum (enum : List String) (elems : List String) : Prop :=
  enum.Nodup ∧ (∀ x ∈ enum, x ∈ elems) ∧ (∀ x ∈ elems, x ∈ enum)

instance (enum : List String) (elems : List String) :
    Decidable (validEnum enum elems) := by
  unfold validEnum; infer_instance

/-- Claim C4 as stated: whatever order the set is enumerated in, the
persisted array equals the ids in insertion order (`insOrder`, oldest
first) with everything before the last 1000 dropped. -/
def claimC4Statement : Prop :=
  ∀ (insOrder enum : List String), insOrder.Nodup → validEnum enum insOrder →
    mark_seen_persist enum = insOrder.drop (insOrder.length - 1000)

/-! ## Submission packager (`AgentRunner._create_submission_archive`) -/

/-- The metadata record serialized into `metadata.json`. -/
structure SubmissionMetadata where
  job_id : String
  model : String
  generated_at_utc : String
deriving DecidableEq, Repr

/-- One named member of the archive.  `json.dumps(metadata)` round-trips
with `json.loads`, so the metadata member is modelled by the record it
serializes; the two text members carry their exact contents. -/
inductive ArchiveMember where
  | text : String → ArchiveMember
  | meta : SubmissionMetadata → ArchiveMember
deriving DecidableEq, Repr

/-- `AgentRunner._create_submission_archive` (runner.py lines 147-164):
an archive with exactly the members `response.txt` (the answer, rstripped,
plus one newline), `prompt.txt` (likewise for the prompt) and
`metadata.json`.  `now_utc` stands for `datetime.now(timezone.utc)
.isoformat()`, an external clock effect. -/
def create_submission_archive (job_id prompt answer model_name now_utc : String) :
    List (String × ArchiveMember) :=
  [("response.txt", .text (pyRstrip answer ++ "\n")),
   ("prompt.txt", .text (pyRstrip prompt ++ "\n")),
   ("metadata.json", .meta (SubmissionMetadata.mk job_id model_name now_utc))]

/-- Look up an archive member by name (zip members are addressed by
name). -/
def member_named (archive : List (String × ArchiveMember)) (name : String) :
    Option ArchiveMember :=
  match archive with
  | [] => none
  | (n, m) :: rest => if n = name then some m else member_named rest name

/-! ## Theorems -/

/-- C5 counterexample: the job `{"jobType": "SWARM", "budget": 5}` has no
`budgetPerAgent` key, so the claim as stated assigns it effective budget
0; the code falls through to the `budget` key and yields 5. -/
theorem C5_counterexample :
    effective_budget [("jobType", JVal.vstr "SWARM"), ("budget", JVal.vnum 5)] = 5 ∧
    claimC5Budget [("jobType", JVal.vstr "SWARM"), ("budget", JVal.vnum 5)] = 0 ∧
    effective_budget [("jobType", JVal.vstr "SWARM"), ("budget", JVal.vnum 5)] ≠
      claimC5Budget [("jobType", JVal.vstr "SWARM"), ("budget", JVal.vnum 5)] := by
  refine ⟨by decide, by decide, by decide⟩

/-- C5 (amended): for every job record, the effective budget follows the
amended rule — a SWARM job uses `budgetPerAgent` when present and
non-null (0 on coercion failure) and falls back to the `budget` rule when
it is absent or null; every other job uses `budget` when present (0 on
coercion failure) and 0 when absent; no case raises. -/
theorem C5_effective_budget_amended (job : JObj) :
    effective_budget job = amendedC5Budget job := by
  unfold effective_budget amendedC5Budget budget_fallback
  by_cases h : isSwarmTag (jget job "jobType")
  · simp only [h, if_true]
    cases hpa : jget job "budgetPerAgent" with
    | none => cases hb : jget job "budget" <;> simp
    | some v =>
      cases v <;> (cases hb : jget job "budget" <;> simp)
  · simp only [Bool.not_eq_true] at h
    simp only [h, Bool.false_eq_true, if_false]
    cases hb : jget job "budget" <;> simp

/-- C4 counterexample: with ids inserted in the order a, b, the Python
set may enumerate as b, a; the persisted array is then `["b", "a"]`,
which is not the insertion-order array the claim predicts — so
`claimC4Statement` is false. -/
theorem C4_counterexample :
    (validEnum ["b", "a"] ["a", "b"] ∧ List.Nodup ["a", "b"] ∧
      mark_seen_persist ["b", "a"] ≠
        (["a", "b"]).drop ((["a", "b"]).length - 1000)) ∧
    ¬claimC4Statement := by
  refine ⟨by decide, fun h => ?_⟩
  exact absurd (h ["a", "b"] ["b", "a"] (by decide) (by decide)) (by decide)

/-- C4 (amended): after every persist, the stored array has
`min (set size) 1000` entries — hence never more than 1000 — without
duplicates, and every entry is a member of the in-memory seen set; which
entries survive and their order follow the set's arbitrary iteration
order, not insertion order. -/
theorem C4_mark_seen_cap (elems enum : List String) (h : validEnum enum elems) :
    (mark_seen_persist enum).length = min enum.length 1000 ∧
    (mark_seen_persist enum).length ≤ 1000 ∧
    (mark_seen_persist enum).Nodup ∧
    ∀ x ∈ mark_seen_persist enum, x ∈ elems := by
  obtain ⟨hnd, hsub, -⟩ := h
  refine ⟨?_, ?_, ?_, ?_⟩
  · simp [mark_seen_persist]
    omega
  · simp [mark_seen_persist]
    omega
  · exact (List.drop_sublist _ _).nodup hnd
  · intro x hx
    exact hsub x (List.mem_of_mem_drop hx)

/-- Witness for C4 (amended) at the two-element store enumerated in
reverse order. -/
theorem C4_mark_seen_cap_witness :
    validEnum ["b", "a"] ["a", "b"] ∧
    (mark_seen_persist ["b", "a"]).length = min 2 1000 ∧
    (mark_seen_persist ["b", "a"]).length ≤ 1000 := by
  have h : validEnum ["b", "a"] ["a", "b"] := by decide
  have hc := C4_mark_seen_cap ["a", "b"] ["b", "a"] h
  exact ⟨h, hc.1, hc.2.1⟩

/-- C8: for every job id, prompt, answer, model label and timestamp, the
submission archive has exactly the three members response.txt, prompt.txt
and metadata.json; the answer member holds the answer rstripped plus one
newline (so `"all good"` gives `"all good\n"`); and the metadata member
is the record whose job-id and model fields are the inputs. -/
theorem C8_archive (job_id prompt answer model_name now_utc : String) :
    (create_submission_archive job_id prompt answer model_name now_utc).map Prod.fst =
      ["response.txt", "prompt.txt", "metadata.json"] ∧
    member_named (create_submission_archive job_id prompt answer model_name now_utc)
      "response.txt" = some (.text (pyRstrip answer ++ "\n")) ∧
    (pyRstrip "all good" ++ "\n" = "all good\n") ∧
    member_named (create_submission_archive job_id prompt answer model_name now_utc)
      "prompt.txt" = some (.text (pyRstrip prompt ++ "\n")) ∧
    member_named (create_submission_archive job_id prompt answer model_name now_utc)
      "metadata.json" = some (.meta (SubmissionMetadata.mk job_id model_name now_utc)) := by
  refine ⟨rfl, by simp [create_submission_archive, member_named], by decide,
    by simp [create_submission_archive, member_named],
    by simp [create_submission_archive, member_named]⟩

/-- C7: a job whose id is already in the seen set triggers no accept, no
generation, no upload and no respond call, and leaves the seen set
unchanged and unmarked. -/
theorem C7_already_seen (seen : Finset String) (min_budget : ℚ) (job : JObj)
    (eff : ProcEffects) (h : job_id_of job ∈ seen) :
    (process_job seen min_budget job eff).acceptCalled = false ∧
    (process_job seen min_budget job eff).generateCalled = false ∧
    (process_job seen min_budget job eff).uploadCalled = false ∧
    (process_job seen min_budget job eff).respondCalled = false ∧
    (process_job seen min_budget job eff).seenAfter = seen ∧
    (process_job seen min_budget job eff).markedSeen = false := by
  unfold process_job
  by_cases hid : job_id_of job = "" <;> simp [hid, h]

/-- Witness for C7: the job `{"id": "j1"}` against a store already
holding `"j1"`. -/
theorem C7_already_seen_witness :
    job_id_of [("id", JVal.vstr "j1")] ∈ ({"j1"} : Finset String) ∧
    (process_job {"j1"} 0 [("id", JVal.vstr "j1")]
      (ProcEffects.mk none (.ok ("a", "m")) (.ok []) (.ok []))).seenAfter = {"j1"} := by
  have h : job_id_of [("id", JVal.vstr "j1")] ∈ ({"j1"} : Finset String) := by decide
  exact ⟨h, (C7_already_seen {"j1"} 0 [("id", JVal.vstr "j1")]
    (ProcEffects.mk none (.ok ("a", "m")) (.ok []) (.ok [])) h).2.2.2.2.1⟩

/-- Helper: a prefix of failing targets only extends the error trail and
the attempt trace. -/
theorem generate_go_failing_front (call : ModelTarget → CallOutcome)
    (pre : List ModelTarget) :
    ∀ (rest : List ModelTarget) (errs : List String),
    (∀ t ∈ pre, target_fails call t = true) →
    generate_go call (pre ++ rest) errs =
      ((generate_go call rest (errs ++ pre.map (failure_reason call))).1,
       pre ++ (generate_go call rest (errs ++ pre.map (failure_reason call))).2) := by
  induction pre with
  | nil => intro rest errs _; simp
  | cons t ts ih =>
    intro rest errs hall
    have hfail : target_fails call t = true := hall t (List.mem_cons_self t ts)
    cases hc : call t with
    | text s =>
      have hempty : pyStrip s = "" := by
        simpa [target_fails, hc] using hfail
      have hrec := ih rest (errs ++ [target_label t ++ " returned empty output"])
        (fun u hu => hall u (List.mem_cons_of_mem t hu))
      simp only [List.cons_append, generate_go, hc, hempty, ne_eq, not_true_eq_false,
        if_false, List.append_eq]
      rw [hrec]
      simp [failure_reason, hc, List.append_assoc]
    | exn m =>
      have hrec := ih rest (errs ++ [target_label t ++ " failed: " ++ m])
        (fun u hu => hall u (List.mem_cons_of_mem t hu))
      simp only [List.cons_append, generate_go, hc, List.append_eq]
      rw [hrec]
      simp [failure_reason, hc, List.append_assoc]

/-- C2: when every target before `t` fails (raises or returns only
whitespace) and `t` returns text that is non-empty after stripping,
`generate` returns the stripped text with the label of `t`, and the
attempted targets are exactly the failing prefix plus `t` — targets after
`t` are never attempted. -/
theorem C2_generate_first_success (call : ModelTarget → CallOutcome)
    (pre post : List ModelTarget) (t : ModelTarget) (s : String)
    (hpre : ∀ u ∈ pre, target_fails call u = true)
    (hcall : call t = .text s) (hne : pyStrip s ≠ "") :
    generate call (pre ++ t :: post) = (.ok (pyStrip s, target_label t), pre ++ [t]) := by
  unfold generate
  rw [generate_go_failing_front call pre (t :: post) [] hpre]
  simp [generate_go, hcall, hne]

/-- Witness for C2: a failing Gemini target followed by a succeeding
OpenAI target; the result is the OpenAI text and label, with no later
target attempted. -/
theorem C2_generate_first_success_witness :
    generate
      (fun t => if t.model = "g1" then .exn "gemini down" else .text "final")
      [ModelTarget.mk "gemini" "g1", ModelTarget.mk "openai" "o1"] =
    (.ok ("final", "openai:o1"),
     [ModelTarget.mk "gemini" "g1", ModelTarget.mk "openai" "o1"]) := by
  have h := C2_generate_first_success
    (fun t => if t.model = "g1" then .exn "gemini down" else .text "final")
    [ModelTarget.mk "gemini" "g1"] [] (ModelTarget.mk "openai" "o1") "final"
    (by decide) (by rfl) (by decide)
  simpa using h

/-- Helper: when every target fails, the loop accumulates the whole
trail. -/
theorem generate_go_all_fail (call : ModelTarget → CallOutcome)
    (ts : List ModelTarget) :
    ∀ (errs : List String), (∀ t ∈ ts, target_fails call t = true) →
    generate_go call ts errs =
      (.error ("All configured models failed. " ++
        String.intercalate " | " (errs ++ ts.map (failure_reason call))), ts) := by
  induction ts with
  | nil => intro errs _; simp [generate_go]
  | cons t ts ih =>
    intro errs hall
    have hfail : target_fails call t = true := hall t (List.mem_cons_self t ts)
    cases hc : call t with
    | text s =>
      have hempty : pyStrip s = "" := by
        simpa [target_fails, hc] using hfail
      have hrec := ih (errs ++ [target_label t ++ " returned empty output"])
        (fun u hu => hall u (List.mem_cons_of_mem t hu))
      simp only [generate_go, hc, hempty, ne_eq, not_true_eq_false, if_false, hrec]
      simp [failure_reason, hc]
    | exn m =>
      have hrec := ih (errs ++ [target_label t ++ " failed: " ++ m])
        (fun u hu => hall u (List.mem_cons_of_mem t hu))
      simp only [generate_go, hc, hrec]
      simp [failure_reason, hc]

/-- C3: when every target fails or returns only whitespace, `generate`
raises an error whose message lists every per-target failure reason, in
attempt order, joined by pipe separators. -/
theorem C3_generate_exhaustion (call : ModelTarget → CallOutcome)
    (targets : List ModelTarget)
    (hall : ∀ t ∈ targets, target_fails call t = true) :
    generate call targets =
      (.error ("All configured models failed. " ++
        String.intercalate " | " (targets.map (failure_reason call))), targets) := by
  unfold generate
  simpa using generate_go_all_fail call targets [] hall

/-- Witness for C3: one raising target and one whitespace-only target
produce the combined pipe-separated message. -/
theorem C3_generate_exhaustion_witness :
    generate (fun t => if t.provider = "gemini" then .exn "gemini down" else .text "  ")
      [ModelTarget.mk "gemini" "g1", ModelTarget.mk "openai" "o1"] =
    (.error ("All configured models failed. " ++
      String.intercalate " | "
        ["gemini:g1 failed: gemini down", "openai:o1 returned empty output"]),
     [ModelTarget.mk "gemini" "g1", ModelTarget.mk "openai" "o1"]) := by
  have h := C3_generate_exhaustion
    (fun t => if t.provider = "gemini" then .exn "gemini down" else .text "  ")
    [ModelTarget.mk "gemini" "g1", ModelTarget.mk "openai" "o1"] (by decide)
  simpa [failure_reason, target_label] using h

/-- C9: construction fails with the configuration error exactly when
neither provider is enabled (credential and model list both non-empty),
and otherwise succeeds with all enabled Gemini targets in configured
order followed by all enabled OpenAI targets in configured order. -/
theorem C9_llm_init (gk okk : String) (gms oms : List String) :
    ((llm_init gk okk gms oms =
        .error "No LLM models configured. Set GEMINI_API_KEY/OPENAI_API_KEY with model lists.") ↔
      (¬providerEnabled gk gms ∧ ¬providerEnabled okk oms)) ∧
    ((providerEnabled gk gms ∨ providerEnabled okk oms) →
      llm_init gk okk gms oms =
        .ok ((if providerEnabled gk gms then gms.map (fun m => ModelTarget.mk "gemini" m) else []) ++
             (if providerEnabled okk oms then oms.map (fun m => ModelTarget.mk "openai" m) else []))) := by
  have hgiff : (!gk.isEmpty && !gms.isEmpty) = true ↔ providerEnabled gk gms := by
    simp [providerEnabled, String.isEmpty_iff, List.isEmpty_iff, Bool.eq_false_iff]
  have hoiff : (!okk.isEmpty && !oms.isEmpty) = true ↔ providerEnabled okk oms := by
    simp [providerEnabled, String.isEmpty_iff, List.isEmpty_iff, Bool.eq_false_iff]
  simp only [llm_init]
  cases hbg : (!gk.isEmpty && !gms.isEmpty) with
  | false =>
    have hng : ¬providerEnabled gk gms := by
      rw [← hgiff, hbg]; simp
    cases hbo : (!okk.isEmpty && !oms.isEmpty) with
    | false =>
      have hno : ¬providerEnabled okk oms := by
        rw [← hoiff, hbo]; simp
      simp [hng, hno]
    | true =>
      have hpo : providerEnabled okk oms := hoiff.mp hbo
      have hone : oms ≠ [] := hpo.2
      simp [hng, hpo, List.isEmpty_iff, hone]
  | true =>
    have hpg : providerEnabled gk gms := hgiff.mp hbg
    have hgne : gms ≠ [] := hpg.2
    cases hbo : (!okk.isEmpty && !oms.isEmpty) with
    | false =>
      have hno : ¬providerEnabled okk oms := by
        rw [← hoiff, hbo]; simp
      simp [hpg, hno, List.isEmpty_iff, hgne]
    | true =>
      have hpo : providerEnabled okk oms := hoiff.mp hbo
      simp [hpg, hpo, List.isEmpty_iff, hgne]

/-- Witness for C9: only Gemini configured, with two models, yields the
two Gemini targets in order. -/
theorem C9_llm_init_witness :
    providerEnabled "g" ["m1", "m2"] ∧
    llm_init "g" "" ["m1", "m2"] [] =
      .ok [ModelTarget.mk "gemini" "m1", ModelTarget.mk "gemini" "m2"] := by
  have hp : providerEnabled "g" ["m1", "m2"] := by decide
  have h := (C9_llm_init "g" "" ["m1", "m2"] []).2 (Or.inl hp)
  refine ⟨hp, ?_⟩
  simpa [hp, providerEnabled] using h

/-- Helper: exhausting the attempt list yields the wrapping error built
from the last error encountered. -/
theorem try_attempts_all_error (request : ℕ → JVal → Except ApiErr JVal) (job_id : String)
    (ps : List JVal) :
    ∀ (k : ℕ) (last : Option ApiErr), all_error request k ps →
    try_attempts request job_id ps k last =
      .error (exhaustion_error job_id (last_err request k last ps)) := by
  induction ps with
  | nil => intro k last _; rfl
  | cons p rest ih =>
    intro k last h
    obtain ⟨⟨e, he⟩, hrest⟩ := h
    simp only [try_attempts, he, last_err]
    rw [ih (k + 1) (some e) hrest]

/-- Helper: the first attempt that does not error is the result. -/
theorem try_attempts_first_success (request : ℕ → JVal → Except ApiErr JVal)
    (job_id : String) (pre : List JVal) :
    ∀ (p : JVal) (post : List JVal) (r : JVal) (k : ℕ) (last : Option ApiErr),
    all_error request k pre → request (k + pre.length) p = .ok r →
    try_attempts request job_id (pre ++ p :: post) k last = .ok r := by
  induction pre with
  | nil =>
    intro p post r k last _ hp
    simp only [List.length_nil, Nat.add_zero] at hp
    simp only [List.nil_append, try_attempts, hp]
  | cons q pre ih =>
    intro p post r k last hall hp
    obtain ⟨⟨e, he⟩, hrest⟩ := hall
    simp only [List.length_cons] at hp
    have hp2 : request (k + 1 + pre.length) p = .ok r := by
      rw [show k + 1 + pre.length = k + (pre.length + 1) by omega]
      exact hp
    simp only [List.cons_append, try_attempts, he]
    exact ih p post r (k + 1) (some e) hrest hp2

/-- Helper: the attempt list the code builds coincides with the order
claim C1 describes. -/
theorem respond_file_attempts_eq_claim (u : JObj) (fb : String) :
    respond_file_attempts u fb = claimC1Attempts u fb := by
  unfold respond_file_attempts claimC1Attempts
  cases h : extract_upload_file_candidates u with
  | nil => simp
  | cons a rest =>
    cases rest with
    | nil => simp
    | cons b rest2 => simp

/-- C1: `respond_file` tries exactly the payloads claim C1 lists, in that
order — descriptor list (plus single descriptor when there is exactly
one), then the five shapes per reference string, then the text fallback —
returns the first attempt that does not raise an API error, and when
every attempt raises it raises the error wrapping the last one. -/
theorem C1_respond_file (request : ℕ → JVal → Except ApiErr JVal)
    (job_id : String) (u : JObj) (fb : String) :
    respond_file_attempts u fb = claimC1Attempts u fb ∧
    (∀ (pre : List JVal) (p : JVal) (post : List JVal) (r : JVal),
      respond_file_attempts u fb = pre ++ p :: post →
      all_error request 0 pre → request pre.length p = .ok r →
      respond_file request job_id u fb = .ok r) ∧
    (all_error request 0 (respond_file_attempts u fb) →
      respond_file request job_id u fb =
        .error (exhaustion_error job_id
          (last_err request 0 none (respond_file_attempts u fb)))) := by
  refine ⟨respond_file_attempts_eq_claim u fb, ?_, ?_⟩
  · intro pre p post r hsplit hpre hp
    unfold respond_file
    rw [hsplit]
    exact try_attempts_first_success request job_id pre p post r 0 none hpre
      (by simpa using hp)
  · intro hall
    exact try_attempts_all_error request job_id _ 0 none hall

/-- Witness for C1: an upload with one file descriptor, a transport that
fails the first attempt and accepts the second: the result is the second
attempt's payload response. -/
theorem C1_respond_file_witness :
    respond_file
      (fun k _ => if k = 0 then .error (ApiErr.mk "first failed")
                  else .ok (JVal.vobj [("ok", JVal.vbool true)]))
      "job-1" [("files", JVal.vlist [JVal.vobj [("url", JVal.vstr "x")]])] "fallback" =
      .ok (JVal.vobj [("ok", JVal.vbool true)]) := by
  have h := (C1_respond_file
    (fun k _ => if k = 0 then .error (ApiErr.mk "first failed")
                else .ok (JVal.vobj [("ok", JVal.vbool true)]))
    "job-1" [("files", JVal.vlist [JVal.vobj [("url", JVal.vstr "x")]])] "fallback").2.1
  exact h
    [JVal.vobj [("responseType", JVal.vstr "FILE"),
      ("files", JVal.vlist [JVal.vobj [("url", JVal.vstr "x")]])]]
    (JVal.vobj [("responseType", JVal.vstr "FILE"), ("file", JVal.vobj [("url", JVal.vstr "x")])])
    [JVal.vobj [("responseType", JVal.vstr "FILE"), ("content", JVal.vstr "x")],
     JVal.vobj [("responseType", JVal.vstr "FILE"), ("fileUrl", JVal.vstr "x")],
     JVal.vobj [("responseType", JVal.vstr "FILE"), ("url", JVal.vstr "x")],
     JVal.vobj [("responseType", JVal.vstr "FILE"), ("attachments", JVal.vlist [JVal.vstr "x"])],
     JVal.vobj [("responseType", JVal.vstr "FILE"),
       ("files", JVal.vlist [JVal.vobj [("url", JVal.vstr "x")]])],
     JVal.vobj [("responseType", JVal.vstr "TEXT"), ("content", JVal.vstr "fallback")]]
    (JVal.vobj [("ok", JVal.vbool true)])
    (by rfl)
    ⟨⟨ApiErr.mk "first failed", rfl⟩, trivial⟩
    rfl

/-- C10: an upload result yielding no file descriptor and no reference
string produces exactly one attempt, the plain-text fallback payload, and
`respond_file` returns its result when that single request succeeds. -/
theorem C10_respond_file_text_only (request : ℕ → JVal → Except ApiErr JVal)
    (job_id : String) (u : JObj) (fb : String) (r : JVal)
    (hfc : extract_upload_file_candidates u = [])
    (hrefs : extract_upload_reference_strings u = [])
    (hreq : request 0 (text_attempt fb) = .ok r) :
    respond_file_attempts u fb = [text_attempt fb] ∧
    respond_file request job_id u fb = .ok r := by
  have hatt : respond_file_attempts u fb = [text_attempt fb] := by
    simp only [respond_file_attempts, hfc, hrefs]
    simp
  refine ⟨hatt, ?_⟩
  unfold respond_file
  rw [hatt]
  simp only [try_attempts, hreq]

/-- Witness for C10 at the empty upload result. -/
theorem C10_respond_file_text_only_witness :
    extract_upload_file_candidates [] = [] ∧
    extract_upload_reference_strings [] = [] ∧
    respond_file (fun _ _ => .ok (JVal.vobj [])) "j" [] "hello" = .ok (JVal.vobj []) := by
  refine ⟨rfl, rfl, ?_⟩
  exact (C10_respond_file_text_only (fun _ _ => .ok (JVal.vobj [])) "j" [] "hello"
    (JVal.vobj []) rfl rfl rfl).2

/-- C6: the pipeline marks a job seen exactly on the four terminal states
under-budget, failed SWARM accept, empty prompt and successful
submission; marking inserts the job id; and a job that fails during
generation, upload or respond leaves the seen set unchanged. -/
theorem C6_mark_seen_on_terminal (seen : Finset String) (min_budget : ℚ)
    (job : JObj) (eff : ProcEffects) :
    ((process_job seen min_budget job eff).markedSeen = true ↔
      ((process_job seen min_budget job eff).outcome = .skippedBudget ∨
       (process_job seen min_budget job eff).outcome = .acceptFailed ∨
       (process_job seen min_budget job eff).outcome = .skippedEmptyPrompt ∨
       (process_job seen min_budget job eff).outcome = .submitted)) ∧
    ((process_job seen min_budget job eff).markedSeen = true →
      (process_job seen min_budget job eff).seenAfter = insert (job_id_of job) seen) ∧
    ((process_job seen min_budget job eff).outcome = .failed →
      (process_job seen min_budget job eff).seenAfter = seen) := by
  unfold process_job process_job_rest
  by_cases h1 : job_id_of job = ""
  · simp [h1]
  · by_cases h2 : job_id_of job ∈ seen
    · simp [h1, h2]
    · by_cases h3 : effective_budget job < min_budget
      · simp [h1, h2, h3]
      · by_cases h4 : job_type_of job = "SWARM"
        all_goals
          cases ha : eff.acceptResult <;>
          by_cases hp : prompt_of job = "" <;>
          cases hg : eff.generateResult <;>
          cases hu : eff.uploadResult <;>
          cases hr : eff.respondResult <;>
          simp [h1, h2, h3, h4, ha, hp, hg, hu, hr]

/-- Witness for C6: a job whose generation raises is not marked seen and
leaves the store unchanged. -/
theorem C6_mark_seen_on_terminal_witness :
    (process_job (∅ : Finset String) 0
      [("id", JVal.vstr "j2"), ("prompt", JVal.vstr "p")]
      (ProcEffects.mk none (.error "llm down") (.ok []) (.ok []))).outcome = .failed ∧
    (process_job (∅ : Finset String) 0
      [("id", JVal.vstr "j2"), ("prompt", JVal.vstr "p")]
      (ProcEffects.mk none (.error "llm down") (.ok []) (.ok []))).seenAfter =
      (∅ : Finset String) := by
  refine ⟨by decide, ?_⟩
  exact (C6_mark_seen_on_terminal ∅ 0
    [("id", JVal.vstr "j2"), ("prompt", JVal.vstr "p")]
    (ProcEffects.mk none (.error "llm down") (.ok []) (.ok []))).2.2 (by decide)

end Seedstr
